import Mathlib

/-!
Shallow embedding of the core of the terraform-provider-appleappstoreconnect
repository (Go), covering: the Terraform tri-state attribute values, the Go
time representation used for expiration timestamps, the certificate recreate
threshold plan modifier, the JWT token manager of the API client, the API
client construction and response processing, the certificate resource Create
validation, Read refresh and Delete, the certificate data source filter Read,
and the PKCS12 encode and decode provider functions.
-/

namespace ASC

/-! ## Terraform framework attribute values

Terraform framework string and int64 attribute values are tri-state: null,
unknown, or a known value.  ValueString and ValueInt64 return the zero value
on null or unknown, exactly as in the Go framework. -/

/-- Model of terraform-plugin-framework types.String. -/
inductive TFString where
  | null
  | unknown
  | value (s : String)
deriving DecidableEq, Repr

/-- Model of types.String.IsNull. -/
def TFString.isNull : TFString → Bool
  | .null => true
  | _ => false

/-- Model of types.String.IsUnknown. -/
def TFString.isUnknown : TFString → Bool
  | .unknown => true
  | _ => false

/-- Model of types.String.ValueString: the known value, or the empty string
for null and unknown values. -/
def TFString.valueString : TFString → String
  | .value s => s
  | _ => ""

/-- Model of terraform-plugin-framework types.Int64. -/
inductive TFInt64 where
  | null
  | unknown
  | value (n : Int)
deriving DecidableEq, Repr

/-- Model of types.Int64.IsNull. -/
def TFInt64.isNull : TFInt64 → Bool
  | .null => true
  | _ => false

/-- Model of types.Int64.IsUnknown. -/
def TFInt64.isUnknown : TFInt64 → Bool
  | .unknown => true
  | _ => false

/-- Model of types.Int64.ValueInt64: the known value, or 0 for null and
unknown values. -/
def TFInt64.valueInt64 : TFInt64 → Int
  | .value n => n
  | _ => 0

/-! ## Go time values

Go represents a time.Time as an instant (seconds since the Unix epoch, the
sub-second part is irrelevant here) together with the UTC offset in seconds
of the location the value carries.  JSON unmarshalling of a time.Time parses
RFC3339 and keeps the offset given on the wire.  Formatting with the layout
string 2006-01-02T15:04:05Z prints the wall clock fields of the carried
location and appends the literal character Z (a bare Z in a Go layout is a
literal, only Z07:00 or Z0700 denote an offset), with no conversion to UTC.

The civil calendar conversions below follow the standard days-from-civil and
civil-from-days algorithms for the proleptic Gregorian calendar, which is
what the Go time package computes. -/

/-- Model of Go time.Time: an instant in Unix seconds plus the UTC offset in
seconds of the location carried by the value. -/
structure GoTime where
  unixSec : Int
  offsetSec : Int
deriving DecidableEq, Repr

/-- Day count since 1970-01-01 of a proleptic Gregorian calendar date. -/
def daysFromCivil (y : Int) (m d : Nat) : Int :=
  let y : Int := y - (if m ≤ 2 then 1 else 0)
  let era : Int := Int.fdiv y 400
  let yoe : Int := y - era * 400
  let mp : Int := (m : Int) + (if 2 < m then -3 else 9)
  let doy : Int := Int.fdiv (153 * mp + 2) 5 + (d : Int) - 1
  let doe : Int := yoe * 365 + Int.fdiv yoe 4 - Int.fdiv yoe 100 + doy
  era * 146097 + doe - 719468

/-- Proleptic Gregorian calendar date of a day count since 1970-01-01. -/
def civilFromDays (z : Int) : Int × Nat × Nat :=
  let z : Int := z + 719468
  let era : Int := Int.fdiv z 146097
  let doe : Int := z - era * 146097
  let yoe : Int :=
    Int.fdiv (doe - Int.fdiv doe 1460 + Int.fdiv doe 36524 - Int.fdiv doe 146096) 365
  let y : Int := yoe + era * 400
  let doy : Int := doe - (365 * yoe + Int.fdiv yoe 4 - Int.fdiv yoe 100)
  let mp : Int := Int.fdiv (5 * doy + 2) 153
  let d : Int := doy - Int.fdiv (153 * mp + 2) 5 + 1
  let m : Int := mp + (if mp < 10 then 3 else -9)
  (y + (if m ≤ 2 then 1 else 0), m.toNat, d.toNat)

/-- Unix seconds of a civil date and time of day, taken as UTC. -/
def epochFromCivil (y : Int) (m d hh mm ss : Nat) : Int :=
  daysFromCivil y m d * 86400 + ((hh * 3600 + mm * 60 + ss : Nat) : Int)

/-- Civil date and time of day, in UTC, of an instant in Unix seconds. -/
def civilFromEpoch (s : Int) : Int × Nat × Nat × Nat × Nat × Nat :=
  let days : Int := Int.fdiv s 86400
  let rem : Nat := (s - days * 86400).toNat
  let ymd := civilFromDays days
  (ymd.1, ymd.2.1, ymd.2.2, rem / 3600, rem % 3600 / 60, rem % 60)

/-- Decimal rendering of a natural number left padded with zeros to two
digits. -/
def pad2 (n : Nat) : String :=
  if n < 10 then "0" ++ toString n else toString n

/-- Decimal rendering of a natural number left padded with zeros to four
digits. -/
def pad4 (n : Nat) : String :=
  if n < 10 then "000" ++ toString n
  else if n < 100 then "00" ++ toString n
  else if n < 1000 then "0" ++ toString n
  else toString n

/-- Model of Go t.Format with layout 2006-01-02T15:04:05Z: the wall clock
fields of the carried location rendered with zero padding and a literal Z
appended.  No conversion to UTC is performed by Go for this layout. -/
def goFormatZ (t : GoTime) : String :=
  let c := civilFromEpoch (t.unixSec + t.offsetSec)
  pad4 c.1.toNat ++ "-" ++ pad2 c.2.1 ++ "-" ++ pad2 c.2.2.1 ++ "T" ++
    pad2 c.2.2.2.1 ++ ":" ++ pad2 c.2.2.2.2.1 ++ ":" ++ pad2 c.2.2.2.2.2 ++ "Z"

/-- Number of days in a month of a year, as in the Go time package. -/
def daysInMonth (y : Int) (m : Nat) : Nat :=
  if m = 2 then
    if Int.emod y 4 = 0 ∧ (Int.emod y 100 ≠ 0 ∨ Int.emod y 400 = 0) then 29 else 28
  else if m = 4 ∨ m = 6 ∨ m = 9 ∨ m = 11 then 30
  else 31

/-- Value of a decimal digit character. -/
def digitVal (c : Char) : Option Nat :=
  if c.isDigit then some (c.toNat - 48) else none

/-- Two digit decimal number. -/
def dec2 (a b : Char) : Option Nat := do
  let x ← digitVal a
  let y ← digitVal b
  pure (10 * x + y)

/-- Four digit decimal number. -/
def dec4 (a b c d : Char) : Option Nat := do
  let x ← dec2 a b
  let y ← dec2 c d
  pure (100 * x + y)

/-- Model of Go time.Parse with layout 2006-01-02T15:04:05Z applied to a
candidate timestamp string: fixed width decimal fields, literal separators,
range checks on month, day (month and leap year aware), hour, minute and
second, and nothing after the final literal Z.  The parsed time is in UTC;
the result is its instant in Unix seconds. -/
def parseTimestamp (s : String) : Option Int :=
  match s.data with
  | [y1, y2, y3, y4, '-', m1, m2, '-', d1, d2, 'T',
     h1, h2, ':', n1, n2, ':', s1, s2, 'Z'] => do
    let y ← dec4 y1 y2 y3 y4
    let mo ← dec2 m1 m2
    let dy ← dec2 d1 d2
    let hh ← dec2 h1 h2
    let mi ← dec2 n1 n2
    let sc ← dec2 s1 s2
    if 1 ≤ mo ∧ mo ≤ 12 ∧ 1 ≤ dy ∧ dy ≤ daysInMonth (y : Int) mo ∧
        hh ≤ 23 ∧ mi ≤ 59 ∧ sc ≤ 59 then
      pure (epochFromCivil (y : Int) mo dy hh mi sc)
    else none
  | _ => none

/-! ## Certificate recreate threshold plan modifier

Embedding of CertificateRecreateThresholdPlanModifier.PlanModifyString.  The
modifier is attached to the expiration_date attribute of the certificate
resource, so req.StateValue is the expiration date string held in the prior
state.  The two raw null checks correspond to the resource being created or
destroyed. -/

/-- Inputs of PlanModifyString that the function inspects. -/
structure PlanModifyStringRequest where
  stateRawIsNull : Bool
  planRawIsNull : Bool
  stateValue : TFString
  planRecreateThreshold : TFInt64
deriving Repr

/-- Threshold seconds used by the plan modifier: the planned
recreate_threshold when it is a known value, else the default 2592000. -/
def effectiveThreshold (t : TFInt64) : Int :=
  if ¬t.isNull ∧ ¬t.isUnknown then t.valueInt64 else 2592000

/-- Embedding of PlanModifyString.  The returned Bool is the final value of
resp.RequiresReplace (initially false).  The now argument is the instant
returned by time.Now during the call, in Unix seconds. -/
def planModifyString (req : PlanModifyStringRequest) (now : Int) : Bool :=
  if req.stateRawIsNull then false
  else if req.planRawIsNull then false
  else if req.stateValue.isNull || req.stateValue.isUnknown then false
  else
    let thresholdSeconds : Int := effectiveThreshold req.planRecreateThreshold
    if thresholdSeconds = 0 then false
    else
      let expirationStr := req.stateValue.valueString
      if expirationStr = "" then false
      else
        match parseTimestamp expirationStr with
        | none => false
        | some expirationDate => decide (expirationDate < now + thresholdSeconds)

/-! ## Token manager of the API client

Embedding of the token cache of Client (currentToken, tokenExpiry) and of
Client.getToken.  The model is sequential: the read-lock fast path and the
write-lock double check evaluate the same condition at the same instant, so
they collapse into one check.  Signing by generateToken is external crypto;
its outcome is passed in as an Option String (none models a signing
failure). -/

/-- Maximum lifetime of a JWT token in seconds (20 minutes in the source). -/
def tokenExpiration : Int := 20 * 60

/-- Buffer before token expiration at which the token is refreshed
(5 minutes in the source). -/
def tokenRefreshBuffer : Int := 5 * 60

/-- Token cache fields of Client. -/
structure ClientTokenState where
  currentToken : String
  tokenExpiry : Int
deriving DecidableEq, Repr

/-- Condition under which Client.getToken serves the cached token: a
non-empty cached token whose expiry minus the refresh buffer is still in the
future. -/
def cacheValid (st : ClientTokenState) (now : Int) : Bool :=
  !(st.currentToken == "") && decide (now < st.tokenExpiry - tokenRefreshBuffer)

/-- Embedding of Client.getToken.  On a cache miss a new token is generated
(generated = none models a generateToken failure, which is returned as an
error), stored with expiry now plus tokenExpiration, and returned.  The
returned state carries the recorded expiry of the returned token. -/
def getToken (st : ClientTokenState) (now : Int) (generated : Option String) :
    Except String (String × ClientTokenState) :=
  if cacheValid st now then .ok (st.currentToken, st)
  else
    match generated with
    | none => .error "failed to sign token"
    | some token => .ok (token, ⟨token, now + tokenExpiration⟩)

/-! ## Certificate material: keys, PEM blocks, PKCS12 bundles

The byte strings handled by the material pipeline are abstracted into a
structured representation: a DER byte string is known to be a certificate,
a PKCS1 RSA key, a SEC1 EC key, a PKCS8 key, or junk.  The Go standard
library and sslmate go-pkcs12 parsers and encoders are external to the
repository; they are modelled by their documented contracts over this
representation: each parser accepts exactly its own container, the PKCS12
bundle produced by Modern.Encode decodes with the same password back to the
bundled key and certificate, and the certificate field Raw is the original
DER. -/

/-- Parsed private key, as held in a Go crypto.PrivateKey interface value. -/
inductive PrivKey where
  | rsa (material : Nat)
  | ec (material : Nat)
deriving DecidableEq, Repr

/-- Abstracted DER byte string. -/
inductive DerBytes where
  | certDer (material : Nat)
  | pkcs1Rsa (material : Nat)
  | sec1Ec (material : Nat)
  | pkcs8 (key : PrivKey)
  | junk (material : Nat)
deriving DecidableEq, Repr

/-- A PEM block: a type line and the enclosed DER bytes. -/
structure PemBlock where
  type : String
  bytes : DerBytes
deriving DecidableEq, Repr

/-- A PEM text, as the sequence of PEM blocks it contains.  The empty Go
string corresponds to the empty list. -/
abbrev PemText := List PemBlock

/-- Model of Go pem.Decode: the first PEM block of the text, or none. -/
def pemDecode (t : PemText) : Option PemBlock := t.head?

/-- Model of a parsed Go x509.Certificate; Raw holds the original DER. -/
structure X509Certificate where
  raw : DerBytes
deriving DecidableEq, Repr

/-- Contract of Go x509.ParseCertificate: succeeds exactly on certificate
DER, and the Raw field of the result is the input bytes. -/
def parseCertificate : DerBytes → Option X509Certificate
  | .certDer m => some ⟨.certDer m⟩
  | _ => none

/-- Contract of Go x509.ParsePKCS1PrivateKey: accepts exactly PKCS1 RSA. -/
def parsePKCS1PrivateKey : DerBytes → Option PrivKey
  | .pkcs1Rsa m => some (.rsa m)
  | _ => none

/-- Contract of Go x509.ParseECPrivateKey: accepts exactly SEC1 EC. -/
def parseECPrivateKey : DerBytes → Option PrivKey
  | .sec1Ec m => some (.ec m)
  | _ => none

/-- Contract of Go x509.ParsePKCS8PrivateKey: accepts exactly PKCS8, and
returns the contained key of whatever algorithm, with no EC restriction. -/
def parsePKCS8PrivateKey : DerBytes → Option PrivKey
  | .pkcs8 k => some k
  | _ => none

/-- Contract of Go x509.MarshalPKCS8PrivateKey for RSA and EC keys. -/
def marshalPKCS8PrivateKey (k : PrivKey) : DerBytes := .pkcs8 k

/-- A PKCS12 bundle as produced by go-pkcs12 Modern.Encode: one private key
and one certificate under one password. -/
structure P12Bundle where
  key : PrivKey
  cert : X509Certificate
  password : String
deriving DecidableEq, Repr

/-- Base64 text carrying either a well-formed PKCS12 bundle or garbage that
fails base64 or PKCS12 decoding. -/
inductive P12Base64 where
  | encoded (p : P12Bundle)
  | garbage (material : Nat)
deriving DecidableEq, Repr

/-- Contract of go-pkcs12 Modern.Encode followed by base64 encoding, for RSA
and EC keys with no CA chain. -/
def pkcs12ModernEncode (key : PrivKey) (cert : X509Certificate)
    (password : String) : P12Base64 :=
  .encoded ⟨key, cert, password⟩

/-! ## API client construction

Embedding of NewClient.  The Go check for an empty private key string and
the nil result of pem.Decode on block-free text both fail construction and
collapse into the pemDecode none case of the model; they differ only in the
error message.  NewClient performs no network request: it only parses the
key and fills the Client struct. -/

/-- Fields of Client relevant to construction. -/
structure ApiClient where
  issuerID : String
  keyID : String
  privateKey : PrivKey
deriving DecidableEq, Repr

/-- Embedding of NewClient. -/
def newClient (issuerID keyID : String) (privateKeyPEM : PemText) :
    Except String ApiClient :=
  if issuerID = "" then .error "issuer ID cannot be empty"
  else if keyID = "" then .error "key ID cannot be empty"
  else
    match pemDecode privateKeyPEM with
    | none => .error "failed to parse private key PEM block"
    | some block =>
      if block.type = "PRIVATE KEY" then
        match parsePKCS8PrivateKey block.bytes with
        | none => .error "failed to parse PKCS8 private key"
        | some key => .ok ⟨issuerID, keyID, key⟩
      else .error ("unsupported private key type: " ++ block.type)

/-! ## Transport response processing

Embedding of the response handling tail of Client.Do, from the point where
the HTTP status code and the response body are in hand.  The body is
abstracted as empty, as non-empty text that does not unmarshal into the
envelope, or as a parsed envelope. -/

/-- An entry of the errors array of the API response envelope. -/
structure ApiError where
  title : String
  detail : String
deriving DecidableEq, Repr

/-- The API response envelope (the fields Client.Do inspects). -/
structure ApiEnvelope where
  dataRaw : String
  errors : List ApiError
deriving DecidableEq, Repr

/-- The zero value Response returned for an empty 2xx body: no data, no
errors. -/
def emptyEnvelope : ApiEnvelope := ⟨"", []⟩

/-- Abstraction of the response body bytes. -/
inductive ResponseBody where
  | empty
  | unparsable (raw : String)
  | parsed (r : ApiEnvelope)
deriving DecidableEq, Repr

/-- Aggregated message built from the errors array: title colon detail for
each entry, joined with semicolons, exactly as the loop in Client.Do. -/
def aggregateApiErrors (es : List ApiError) : String :=
  String.intercalate "; " (es.map fun e => e.title ++ ": " ++ e.detail)

/-- Embedding of the response handling of Client.Do. -/
def clientDoProcessResponse (status : Nat) (body : ResponseBody) :
    Except String ApiEnvelope :=
  match body with
  | .empty =>
    if 200 ≤ status ∧ status < 300 then .ok emptyEnvelope
    else .error ("API error (status " ++ toString status ++ "): empty response")
  | .unparsable raw =>
    if 400 ≤ status then
      .error ("API error (status " ++ toString status ++ "): " ++ raw)
    else .error ("failed to parse response: " ++ raw)
  | .parsed r =>
    if r.errors ≠ [] then .error ("API error: " ++ aggregateApiErrors r.errors)
    else if 400 ≤ status then .error ("API error: HTTP " ++ toString status)
    else .ok r

/-! ## Certificate records and the resource model -/

/-- Attributes of a Certificate returned by the remote API. -/
structure CertificateAttributes where
  serialNumber : String
  certificateContent : String
  displayName : String
  name : String
  certificateType : String
  platform : String
  expirationDate : Option GoTime
deriving DecidableEq, Repr

/-- A Certificate of the remote API.  The nested pointer chain
Relationships.PassTypeId.Data is flattened into one Option. -/
structure Certificate where
  id : String
  attributes : CertificateAttributes
  passTypeIdData : Option String
deriving DecidableEq, Repr

/-- Certificate type constants requiring the pass type id association. -/
def CertificateTypePassTypeID : String := "PASS_TYPE_ID"

/-- Certificate type constant for the NFC pass variant. -/
def CertificateTypePassTypeIDWithNFC : String := "PASS_TYPE_ID_WITH_NFC"

/-- The CertificateResourceModel of the resource implementation.  The
types.List of CA issuers is modelled as an optional list (none is the null
list) and the relationships types.Object as an optional pass type id
value. -/
structure CertificateResourceModel where
  id : TFString
  certificateType : TFString
  csrContent : TFString
  privateKeyPEM : TFString
  certificateContent : TFString
  certificateContentPEM : TFString
  certificateCAIssuers : Option (List String)
  displayName : TFString
  name : TFString
  platform : TFString
  serialNumber : TFString
  expirationDate : TFString
  recreateThreshold : TFInt64
  relationships : Option TFString
  pkcs12BundlePassword : TFString
  pkcs12BundleContent : TFString
deriving DecidableEq, Repr

/-- Expiration attribute produced from the remote response: the formatted
timestamp when present, null when the API carried no expiration date (the
shared else branch of Read and Create in the resource). -/
def readExpirationAttr : Option GoTime → TFString
  | some t => .value (goFormatZ t)
  | none => .null

/-! ## Certificate resource Create: validation before the remote call -/

/-- Body of the create request sent through the Transport. -/
structure CertificateCreateBody where
  certificateType : String
  csrContent : String
  passTypeIdRelationship : Option String
deriving DecidableEq, Repr

/-- Outcome of the validation prefix of CertificateResource.Create: either
a validation diagnostic with no Transport request, or the request body
handed to client.Do. -/
inductive CreateValidationOutcome where
  | validationError (summary : String)
  | remoteCall (body : CertificateCreateBody)
deriving DecidableEq, Repr

/-- PassTypeId of the extracted CertificateRelationshipsModel: a null or
unknown relationships object leaves the zero value model, whose PassTypeId
is the null string. -/
def relationshipsPassTypeId (data : CertificateResourceModel) : TFString :=
  match data.relationships with
  | some v => v
  | none => .null

/-- Embedding of CertificateResource.Create up to and including the call of
client.Do. -/
def certificateCreateValidate (data : CertificateResourceModel) :
    CreateValidationOutcome :=
  let relationshipsPassTypeId : TFString := relationshipsPassTypeId data
  let certType := data.certificateType.valueString
  if (certType == CertificateTypePassTypeID ||
      certType == CertificateTypePassTypeIDWithNFC) &&
      relationshipsPassTypeId.isNull then
    .validationError "Missing Pass Type ID"
  else
    .remoteCall
      { certificateType := certType
        csrContent := data.csrContent.valueString
        passTypeIdRelationship :=
          if !relationshipsPassTypeId.isNull then
            some relationshipsPassTypeId.valueString
          else none }

/-! ## Certificate resource Delete -/

/-- A Terraform diagnostic: summary and detail. -/
structure Diagnostic where
  summary : String
  detail : String
deriving DecidableEq, Repr

/-- Result of a Delete call: the diagnostics added and the Transport
requests issued during the call. -/
structure DeleteResult where
  warnings : List Diagnostic
  errors : List Diagnostic
  remoteRequests : List String
deriving DecidableEq, Repr

/-- Warning detail attached by CertificateResource.Delete, verbatim from
the source. -/
def certificateDeleteWarningDetail : String :=
  "The certificate has been removed from Terraform state, but it cannot be revoked programmatically through the App Store Connect API. If you need to revoke this certificate, you must contact Apple Developer Program Support at https://developer.apple.com/support"

/-- Embedding of CertificateResource.Delete on a well-formed prior state:
no client.Do call appears in the function body; the only effect is one
warning diagnostic, after which the framework drops the record from
state. -/
def certificateDelete (_data : CertificateResourceModel) : DeleteResult :=
  { warnings := [⟨"Certificate Not Revoked", certificateDeleteWarningDetail⟩]
    errors := []
    remoteRequests := [] }

/-! ## Certificate resource Read

Embedding of CertificateResource.Read from the point where the prior state
is in hand.  The remote interaction (client.Do plus json.Unmarshal) is
abstracted as an optional Certificate: none covers the client error and
parse error paths, on which the function returns without writing new state.
The derived field helpers convertDERToPEM and extractCertificateCAIssuers
are pure repository functions over base64 text whose internals none of the
claims about Read depend on; they enter the model as explicit function
arguments, so every theorem about Read holds for the real helpers in
particular.  Read never calls updatePKCS12Bundle. -/

/-- Embedding of CertificateResource.Read.  Returns the new state written
by resp.State.Set, or none when the function returns on an error path. -/
def certificateResourceRead (data0 : CertificateResourceModel)
    (remote : Option Certificate)
    (pemOf : String → Except String String)
    (caOf : String → Except String (List String)) :
    Option CertificateResourceModel :=
  let existingPrivateKeyPEM := data0.privateKeyPEM
  let existingPKCS12Password := data0.pkcs12BundlePassword
  let existingPKCS12Content := data0.pkcs12BundleContent
  match remote with
  | none => none
  | some cert =>
    let data1 :=
      { data0 with
        certificateType := .value cert.attributes.certificateType
        certificateContent := .value cert.attributes.certificateContent
        displayName := .value cert.attributes.displayName
        name := .value cert.attributes.name
        platform := .value cert.attributes.platform
        serialNumber := .value cert.attributes.serialNumber }
    let step2 : Option CertificateResourceModel :=
      if cert.attributes.certificateContent ≠ "" then
        match pemOf cert.attributes.certificateContent with
        | .error _ => none
        | .ok pemContent =>
          some { data1 with certificateContentPEM := .value pemContent }
      else some { data1 with certificateContentPEM := .null }
    match step2 with
    | none => none
    | some data2 =>
      let step3 : Option CertificateResourceModel :=
        if cert.attributes.certificateContent ≠ "" then
          match caOf cert.attributes.certificateContent with
          | .error _ => none
          | .ok caIssuers =>
            some { data2 with certificateCAIssuers := some caIssuers }
        else some { data2 with certificateCAIssuers := none }
      match step3 with
      | none => none
      | some data3 =>
        let data4 :=
          { data3 with
            expirationDate := readExpirationAttr cert.attributes.expirationDate }
        let data5 :=
          match cert.passTypeIdData with
          | some passTypeId => { data4 with relationships := some (.value passTypeId) }
          | none => data4
        some { data5 with
               privateKeyPEM := existingPrivateKeyPEM
               pkcs12BundlePassword := existingPKCS12Password
               pkcs12BundleContent := existingPKCS12Content }

/-! ## Certificate data source Read by filter -/

/-- Filter criteria of the certificate data source. -/
structure CertificateFilterModel where
  certificateType : TFString
  serialNumber : TFString
deriving DecidableEq, Repr

/-- Outcome of the filter branch of CertificateDataSource.Read. -/
inductive FilterReadOutcome where
  | notFoundError
  | multipleResultsError (count : Nat)
  | ok (cert : Certificate)
deriving DecidableEq, Repr

/-- Client-side filtering step of CertificateDataSource.Read: the serial
number filter is applied locally when present; the certificate type filter
was already pushed into the server query, so serverCerts is the list the
server returned for it. -/
def filterCertificates (filter : CertificateFilterModel)
    (serverCerts : List Certificate) : List Certificate :=
  if !filter.serialNumber.isNull then
    serverCerts.filter
      fun c => c.attributes.serialNumber == filter.serialNumber.valueString
  else serverCerts

/-- Embedding of the filter branch of CertificateDataSource.Read after the
list response is parsed: zero matches is a not found error, more than one
is a multiple results error, exactly one populates the model from that
record (the ok outcome carries the record handed to updateModel). -/
def certificateDataSourceFilterRead (filter : CertificateFilterModel)
    (serverCerts : List Certificate) : FilterReadOutcome :=
  let matchingCerts := filterCertificates filter serverCerts
  if matchingCerts.length = 0 then .notFoundError
  else if 1 < matchingCerts.length then
    .multipleResultsError matchingCerts.length
  else
    match matchingCerts.head? with
    | some cert => .ok cert
    | none => .notFoundError

/-! ## PKCS12 encode and decode provider functions -/

/-- Embedding of EncodePKCS12Function.Run from the point where the three
string arguments are in hand: parse the first PEM block of the certificate
argument as a certificate, parse the first PEM block of the key argument
according to its block type (PKCS1 RSA, SEC1 EC, or PKCS8), and bundle both
with the password. -/
def encodePKCS12Run (certPEM keyPEM : PemText) (password : String) :
    Except String P12Base64 :=
  match pemDecode certPEM with
  | none => .error "Failed to parse certificate PEM"
  | some certBlock =>
    match parseCertificate certBlock.bytes with
    | none => .error "Failed to parse certificate"
    | some cert =>
      match pemDecode keyPEM with
      | none => .error "Failed to parse private key PEM"
      | some keyBlock =>
        let parsedKey : Except String PrivKey :=
          if keyBlock.type = "RSA PRIVATE KEY" then
            match parsePKCS1PrivateKey keyBlock.bytes with
            | some k => .ok k
            | none => .error "Failed to parse private key"
          else if keyBlock.type = "EC PRIVATE KEY" then
            match parseECPrivateKey keyBlock.bytes with
            | some k => .ok k
            | none => .error "Failed to parse private key"
          else if keyBlock.type = "PRIVATE KEY" then
            match parsePKCS8PrivateKey keyBlock.bytes with
            | some k => .ok k
            | none => .error "Failed to parse private key"
          else .error ("Unsupported private key type: " ++ keyBlock.type)
        match parsedKey with
        | .error e => .error e
        | .ok key => .ok (pkcs12ModernEncode key cert password)

/-- Embedding of DecodePKCS12Function.Run: base64 decode and PKCS12 decrypt
(both failures are hard errors), then re-encode the certificate as a
CERTIFICATE PEM block from its Raw bytes and the recovered key as an
unencrypted PKCS8 PRIVATE KEY PEM block regardless of its original
container. -/
def decodePKCS12Run (input : P12Base64) (password : String) :
    Except String (PemBlock × PemBlock) :=
  match input with
  | .garbage _ => .error "Failed to decode base64"
  | .encoded p12 =>
    if password = p12.password then
      .ok (⟨"CERTIFICATE", p12.cert.raw⟩,
           ⟨"PRIVATE KEY", marshalPKCS8PrivateKey p12.key⟩)
    else .error "Failed to decode PKCS12: decryption password incorrect"

/-- Holds when a PEM block is one of the three supported containers of the
given private key: PKCS1 for RSA, SEC1 for EC, or PKCS8 for either. -/
def keyBlockEncodes (b : PemBlock) (k : PrivKey) : Prop :=
  (∃ m, b = ⟨"RSA PRIVATE KEY", .pkcs1Rsa m⟩ ∧ k = .rsa m) ∨
  (∃ m, b = ⟨"EC PRIVATE KEY", .sec1Ec m⟩ ∧ k = .ec m) ∨
  b = ⟨"PRIVATE KEY", .pkcs8 k⟩

/-! ## Sample values used to instantiate theorems on concrete inputs -/

/-- Sample prior state with known local PKCS12 fields and everything else
null. -/
def sampleReadState : CertificateResourceModel :=
  { id := .null, certificateType := .null, csrContent := .null
    privateKeyPEM := .value "KEY", certificateContent := .null
    certificateContentPEM := .null, certificateCAIssuers := none
    displayName := .null, name := .null, platform := .null
    serialNumber := .null, expirationDate := .null, recreateThreshold := .null
    relationships := none, pkcs12BundlePassword := .value "PW"
    pkcs12BundleContent := .value "CONTENT" }

/-- Sample remote certificate with empty content and no expiration. -/
def sampleReadCert : Certificate :=
  ⟨"certid", ⟨"SN", "", "dn", "n", "IOS_DEVELOPMENT", "IOS", none⟩, none⟩

/-- State produced by reading sampleReadCert over sampleReadState. -/
def sampleReadResult : CertificateResourceModel :=
  { id := .null, certificateType := .value "IOS_DEVELOPMENT"
    csrContent := .null, privateKeyPEM := .value "KEY"
    certificateContent := .value "", certificateContentPEM := .null
    certificateCAIssuers := none, displayName := .value "dn"
    name := .value "n", platform := .value "IOS", serialNumber := .value "SN"
    expirationDate := .null, recreateThreshold := .null, relationships := none
    pkcs12BundlePassword := .value "PW", pkcs12BundleContent := .value "CONTENT" }

/-! ## Theorems -/

/-- C1: on a planning pass over a previously created record (prior state and
plan both present) whose observed expiration string parses under the fixed
layout, PlanModifyString flags forced replacement exactly when the effective
recreate threshold (the planned value, defaulting to 2592000 seconds when
unset) is nonzero and the observed expiration instant is earlier than now
plus the threshold; and whenever the effective threshold is zero it never
flags replacement, regardless of the expiration. -/
theorem planModifyString_recreate_threshold (req : PlanModifyStringRequest)
    (now : Int) :
    (∀ s exp, req.stateRawIsNull = false → req.planRawIsNull = false →
      req.stateValue = .value s → parseTimestamp s = some exp →
      (planModifyString req now = true ↔
        (effectiveThreshold req.planRecreateThreshold ≠ 0 ∧
          exp < now + effectiveThreshold req.planRecreateThreshold))) ∧
    (effectiveThreshold req.planRecreateThreshold = 0 →
      planModifyString req now = false) := by
  constructor
  · intro s exp h1 h2 h3 h4
    have hs : ¬(s = "") := by
      intro he
      rw [he] at h4
      simp [parseTimestamp] at h4
    rw [planModifyString, h1, h2, h3]
    simp only [TFString.isNull, TFString.isUnknown, TFString.valueString,
      Bool.or_self, if_false, hs, h4]
    by_cases hθ : effectiveThreshold req.planRecreateThreshold = 0
    · simp [hθ]
    · simp [hθ]
  · intro hθ
    rw [planModifyString]
    by_cases h1 : req.stateRawIsNull
    · simp [h1]
    · by_cases h2 : req.planRawIsNull
      · simp [h1, h2]
      · by_cases h3 : req.stateValue.isNull || req.stateValue.isUnknown
        · simp [h1, h2, h3]
        · simp [h1, h2, h3, hθ]

/-- C1 witness: with the prior expiration ten days after now and the
threshold at its 30 day default value the record is flagged; with threshold
zero it is not. -/
theorem planModifyString_recreate_threshold_witness :
    planModifyString
      ⟨false, false, .value "2025-10-21T00:00:00Z", .value 2592000⟩
      1760140800 = true ∧
    planModifyString
      ⟨false, false, .value "2025-10-21T00:00:00Z", .value 0⟩
      1760140800 = false := by
  constructor
  · exact ((planModifyString_recreate_threshold
      ⟨false, false, .value "2025-10-21T00:00:00Z", .value 2592000⟩
      1760140800).1 "2025-10-21T00:00:00Z" 1761004800 rfl rfl rfl
      (by decide)).mpr (by decide)
  · exact (planModifyString_recreate_threshold
      ⟨false, false, .value "2025-10-21T00:00:00Z", .value 0⟩
      1760140800).2 (by decide)

/-- C2: every token returned by getToken comes with a recorded expiry
strictly in the future: the cached token is served exactly while now is
before the recorded expiry minus the refresh buffer (and then the state is
unchanged), and on a cache miss the freshly generated token is recorded
with expiry equal to the generation instant plus the fixed maximum
lifetime; hence getToken never returns an expired token. -/
theorem getToken_never_expired (st : ClientTokenState) (now : Int)
    (generated : Option String) (tok : String) (st' : ClientTokenState)
    (h : getToken st now generated = .ok (tok, st')) :
    tok = st'.currentToken ∧ now < st'.tokenExpiry ∧
    (cacheValid st now = true → st' = st ∧ tok = st.currentToken) ∧
    (cacheValid st now = false → st'.tokenExpiry = now + tokenExpiration) := by
  unfold getToken at h
  by_cases hc : cacheValid st now
  · rw [if_pos hc] at h
    have hlt : now < st.tokenExpiry - tokenRefreshBuffer := by
      have := hc
      unfold cacheValid at this
      simp only [Bool.and_eq_true, decide_eq_true_eq] at this
      exact this.2
    have hbuf : (0 : Int) < tokenRefreshBuffer := by decide
    cases h
    exact ⟨rfl, by omega, fun _ => ⟨rfl, rfl⟩, fun hfalse => by
      rw [hc] at hfalse; cases hfalse⟩
  · rw [if_neg hc] at h
    cases generated with
    | none => cases h
    | some token =>
      cases h
      refine ⟨rfl, ?_, fun htrue => absurd htrue hc, fun _ => rfl⟩
      show now < now + tokenExpiration
      have : (0 : Int) < tokenExpiration := by decide
      omega

/-- C2 witness: a call on an empty cache at instant 0 returns the fresh
token recorded with expiry 1200, which is in the future. -/
theorem getToken_never_expired_witness :
    "t0" = (ClientTokenState.mk "t0" 1200).currentToken ∧
    (0 : Int) < (ClientTokenState.mk "t0" 1200).tokenExpiry := by
  have h := getToken_never_expired ⟨"", 0⟩ 0 (some "t0") "t0" ⟨"t0", 1200⟩ rfl
  exact ⟨h.1, h.2.1⟩

/-- C3: in the filter branch of CertificateDataSource.Read, after the type
filter was pushed into the server query and the serial number filter is
applied client side, an empty match list yields the not found error, two or
more matches yield the multiple results error, and exactly one match
succeeds populating the model from that record. -/
theorem certificateDataSourceFilterRead_trichotomy
    (filter : CertificateFilterModel) (serverCerts : List Certificate) :
    (filterCertificates filter serverCerts = [] →
      certificateDataSourceFilterRead filter serverCerts = .notFoundError) ∧
    (2 ≤ (filterCertificates filter serverCerts).length →
      certificateDataSourceFilterRead filter serverCerts =
        .multipleResultsError (filterCertificates filter serverCerts).length) ∧
    (∀ c, filterCertificates filter serverCerts = [c] →
      certificateDataSourceFilterRead filter serverCerts = .ok c) := by
  refine ⟨?_, ?_, ?_⟩
  · intro hnil
    unfold certificateDataSourceFilterRead
    rw [hnil]
    rfl
  · intro h2
    unfold certificateDataSourceFilterRead
    have h0 : ¬((filterCertificates filter serverCerts).length = 0) := by omega
    have h1 : 1 < (filterCertificates filter serverCerts).length := by omega
    rw [if_neg h0, if_pos h1]
  · intro c hone
    unfold certificateDataSourceFilterRead
    rw [hone]
    rfl

/-- C3 witness: a filter with no serial number over a single server record
succeeds with that record. -/
theorem certificateDataSourceFilterRead_trichotomy_witness :
    certificateDataSourceFilterRead ⟨.value "IOS_DEVELOPMENT", .null⟩
      [sampleReadCert] = .ok sampleReadCert :=
  (certificateDataSourceFilterRead_trichotomy
    ⟨.value "IOS_DEVELOPMENT", .null⟩ [sampleReadCert]).2.2
    sampleReadCert rfl

/-- C4: Create returns the validation diagnostic, and hence issues no
Transport request, exactly when the certificate type is PASS_TYPE_ID or
PASS_TYPE_ID_WITH_NFC and the pass type id association is absent; for every
other combination, in particular every other certificate type with an
absent association, Create proceeds to the remote call. -/
theorem certificateCreateValidate_passTypeId_requirement
    (data : CertificateResourceModel) :
    (((data.certificateType.valueString = CertificateTypePassTypeID ∨
       data.certificateType.valueString = CertificateTypePassTypeIDWithNFC) ∧
      (relationshipsPassTypeId data).isNull = true) →
      certificateCreateValidate data = .validationError "Missing Pass Type ID") ∧
    (¬((data.certificateType.valueString = CertificateTypePassTypeID ∨
        data.certificateType.valueString = CertificateTypePassTypeIDWithNFC) ∧
       (relationshipsPassTypeId data).isNull = true) →
      ∃ body, certificateCreateValidate data = .remoteCall body) := by
  constructor
  · intro ⟨htype, hnull⟩
    have hcond : ((data.certificateType.valueString == CertificateTypePassTypeID ||
        data.certificateType.valueString == CertificateTypePassTypeIDWithNFC) &&
        (relationshipsPassTypeId data).isNull) = true := by
      rcases htype with h | h <;> rw [h] <;> simp [hnull]
    simp only [certificateCreateValidate, hcond, if_true]
  · intro hneg
    have hcond : ¬(((data.certificateType.valueString == CertificateTypePassTypeID ||
        data.certificateType.valueString == CertificateTypePassTypeIDWithNFC) &&
        (relationshipsPassTypeId data).isNull) = true) := by
      intro hb
      apply hneg
      simp only [Bool.and_eq_true, Bool.or_eq_true, beq_iff_eq] at hb
      exact ⟨hb.1, hb.2⟩
    simp only [certificateCreateValidate, hcond, if_false]
    exact ⟨_, rfl⟩

/-- C4 witness: with type PASS_TYPE_ID and no association Create stops with
the validation error; with type IOS_DEVELOPMENT and no association it
reaches the remote call. -/
theorem certificateCreateValidate_passTypeId_requirement_witness :
    certificateCreateValidate
      { sampleReadState with certificateType := .value "PASS_TYPE_ID" } =
      .validationError "Missing Pass Type ID" ∧
    ∃ body, certificateCreateValidate
      { sampleReadState with certificateType := .value "IOS_DEVELOPMENT" } =
      .remoteCall body := by
  constructor
  · exact (certificateCreateValidate_passTypeId_requirement
      { sampleReadState with certificateType := .value "PASS_TYPE_ID" }).1
      ⟨Or.inl rfl, rfl⟩
  · exact (certificateCreateValidate_passTypeId_requirement
      { sampleReadState with certificateType := .value "IOS_DEVELOPMENT" }).2
      (by intro ⟨h, _⟩; rcases h with h | h <;> simp [TFString.valueString,
        CertificateTypePassTypeID, CertificateTypePassTypeIDWithNFC] at h)

/-- C5: Delete of a certificate record issues no Transport request and adds
no error diagnostic; its only diagnostic is the non-fatal warning that the
certificate was removed from tracking but not revoked remotely and that
revocation goes through Apple Developer Program Support. -/
theorem certificateDelete_local_only (data : CertificateResourceModel) :
    (certificateDelete data).remoteRequests = [] ∧
    (certificateDelete data).errors = [] ∧
    (certificateDelete data).warnings =
      [⟨"Certificate Not Revoked", certificateDeleteWarningDetail⟩] :=
  ⟨rfl, rfl, rfl⟩

/-- C6: the response processing of Client.Do turns a parsed envelope with a
non-empty errors array into the single aggregated error joining titles and
details; it returns the parsed envelope successfully exactly when the
errors array is empty and the status is below 400; a status of at least 400
with a body that does not parse as the envelope yields the generic error
carrying the status; a 2xx response with an empty body is a success with no
data; and every successful return has an empty errors array and status
below 400. -/
theorem clientDoProcessResponse_spec (status : Nat) :
    (∀ r : ApiEnvelope, r.errors ≠ [] →
      clientDoProcessResponse status (.parsed r) =
        .error ("API error: " ++ aggregateApiErrors r.errors)) ∧
    (∀ r : ApiEnvelope,
      clientDoProcessResponse status (.parsed r) = .ok r ↔
        (r.errors = [] ∧ status < 400)) ∧
    (∀ raw, 400 ≤ status →
      clientDoProcessResponse status (.unparsable raw) =
        .error ("API error (status " ++ toString status ++ "): " ++ raw)) ∧
    (200 ≤ status → status < 300 →
      clientDoProcessResponse status .empty = .ok emptyEnvelope) ∧
    (∀ body r, clientDoProcessResponse status body = .ok r →
      r.errors = [] ∧ status < 400) := by
  refine ⟨?_, ?_, ?_, ?_, ?_⟩
  · intro r hne
    simp only [clientDoProcessResponse]
    rw [if_pos hne]
  · intro r
    constructor
    · intro h
      simp only [clientDoProcessResponse] at h
      by_cases hne : r.errors ≠ []
      · rw [if_pos hne] at h; cases h
      · rw [if_neg hne] at h
        by_cases h4 : 400 ≤ status
        · rw [if_pos h4] at h; cases h
        · push_neg at hne h4
          exact ⟨hne, h4⟩
    · intro ⟨hnil, hlt⟩
      simp only [clientDoProcessResponse]
      have hne : ¬(r.errors ≠ []) := by simp [hnil]
      rw [if_neg hne, if_neg (by omega : ¬(400 ≤ status))]
  · intro raw h4
    simp only [clientDoProcessResponse]
    rw [if_pos h4]
  · intro h200 h300
    simp only [clientDoProcessResponse]
    rw [if_pos ⟨h200, h300⟩]
  · intro body r h
    cases body with
    | empty =>
      simp only [clientDoProcessResponse] at h
      by_cases h2 : 200 ≤ status ∧ status < 300
      · rw [if_pos h2] at h
        cases h
        exact ⟨rfl, by omega⟩
      · rw [if_neg h2] at h; cases h
    | unparsable raw =>
      simp only [clientDoProcessResponse] at h
      by_cases h4 : 400 ≤ status
      · rw [if_pos h4] at h; cases h
      · rw [if_neg h4] at h; cases h
    | parsed e =>
      simp only [clientDoProcessResponse] at h
      by_cases hne : e.errors ≠ []
      · rw [if_pos hne] at h; cases h
      · rw [if_neg hne] at h
        by_cases h4 : 400 ≤ status
        · rw [if_pos h4] at h; cases h
        · rw [if_neg h4] at h
          cases h
          push_neg at hne h4
          exact ⟨hne, h4⟩

/-- C6 witness: at status 200, one error entry is aggregated into one error
message, and an empty body is a success with no data. -/
theorem clientDoProcessResponse_spec_witness :
    clientDoProcessResponse 200 (.parsed ⟨"", [⟨"t", "d"⟩]⟩) =
      .error ("API error: " ++ aggregateApiErrors [⟨"t", "d"⟩]) ∧
    clientDoProcessResponse 200 .empty = .ok emptyEnvelope := by
  have h := clientDoProcessResponse_spec 200
  exact ⟨h.1 ⟨"", [⟨"t", "d"⟩]⟩ (by decide), h.2.2.2.1 (by decide) (by decide)⟩

/-- C7: for every certificate, every private key in any of the three
supported PEM containers (PKCS1 RSA, SEC1 EC, PKCS8), and every password,
decoding the encoded PKCS12 bundle with the same password succeeds and
returns the certificate as a CERTIFICATE PEM block with the original DER
and the same private key re-encoded as an unencrypted PKCS8 PRIVATE KEY
PEM block, regardless of the original key container. -/
theorem pkcs12_roundtrip (certType : String) (c : Nat) (kb : PemBlock)
    (k : PrivKey) (pw : String) (h : keyBlockEncodes kb k) :
    encodePKCS12Run [⟨certType, .certDer c⟩] [kb] pw =
      .ok (.encoded ⟨k, ⟨.certDer c⟩, pw⟩) ∧
    decodePKCS12Run (.encoded ⟨k, ⟨.certDer c⟩, pw⟩) pw =
      .ok (⟨"CERTIFICATE", .certDer c⟩, ⟨"PRIVATE KEY", .pkcs8 k⟩) := by
  have hdec :
      decodePKCS12Run (.encoded ⟨k, ⟨.certDer c⟩, pw⟩) pw =
        .ok (⟨"CERTIFICATE", .certDer c⟩, ⟨"PRIVATE KEY", .pkcs8 k⟩) := by
    simp [decodePKCS12Run, marshalPKCS8PrivateKey]
  rcases h with ⟨m, hb, hk⟩ | ⟨m, hb, hk⟩ | hb
  · subst hb; subst hk; exact ⟨rfl, hdec⟩
  · subst hb; subst hk; exact ⟨rfl, hdec⟩
  · subst hb; exact ⟨rfl, hdec⟩

/-- C7 witness: a SEC1 EC key under an EC PRIVATE KEY block round-trips to
the same key in a PKCS8 PRIVATE KEY block. -/
theorem pkcs12_roundtrip_witness :
    encodePKCS12Run [⟨"CERTIFICATE", .certDer 1⟩]
      [⟨"EC PRIVATE KEY", .sec1Ec 2⟩] "secret" =
      .ok (.encoded ⟨.ec 2, ⟨.certDer 1⟩, "secret"⟩) ∧
    decodePKCS12Run (.encoded ⟨.ec 2, ⟨.certDer 1⟩, "secret"⟩) "secret" =
      .ok (⟨"CERTIFICATE", .certDer 1⟩, ⟨"PRIVATE KEY", .pkcs8 (.ec 2)⟩) :=
  pkcs12_roundtrip "CERTIFICATE" 1 ⟨"EC PRIVATE KEY", .sec1Ec 2⟩ (.ec 2)
    "secret" (Or.inr (Or.inl ⟨2, rfl, rfl⟩))

/-- C8 counterexample: NewClient succeeds on an RSA key in a PKCS8
container, so a non elliptic curve private key does not cause construction
to fail, contrary to the claim; the source parses the PKCS8 contents but
never checks the algorithm of the contained key. -/
theorem newClient_accepts_rsa_pkcs8_counterexample :
    newClient "issuer" "keyid" [⟨"PRIVATE KEY", .pkcs8 (.rsa 7)⟩] =
      .ok ⟨"issuer", "keyid", .rsa 7⟩ := rfl

/-- C8 amended: NewClient succeeds exactly when the issuer identifier and
key identifier are non-empty and the first PEM block of the private key
text has type PRIVATE KEY with PKCS8 contents that parse to a private key
of any algorithm (so empty credential fields, an absent or differently
typed block, and unparsable PKCS8 contents all fail construction, but a
parseable non elliptic curve PKCS8 key is accepted and its rejection is
deferred to token signing); on success the client holds exactly the given
identifiers and the parsed key, and no remote call is attempted. -/
theorem newClient_spec (issuerID keyID : String) (privateKeyPEM : PemText) :
    ((∃ cl, newClient issuerID keyID privateKeyPEM = .ok cl) ↔
      (issuerID ≠ "" ∧ keyID ≠ "" ∧
        ∃ k, pemDecode privateKeyPEM = some ⟨"PRIVATE KEY", .pkcs8 k⟩)) ∧
    (∀ k, issuerID ≠ "" → keyID ≠ "" →
      pemDecode privateKeyPEM = some ⟨"PRIVATE KEY", .pkcs8 k⟩ →
      newClient issuerID keyID privateKeyPEM = .ok ⟨issuerID, keyID, k⟩) := by
  have hok : ∀ k, issuerID ≠ "" → keyID ≠ "" →
      pemDecode privateKeyPEM = some ⟨"PRIVATE KEY", .pkcs8 k⟩ →
      newClient issuerID keyID privateKeyPEM = .ok ⟨issuerID, keyID, k⟩ := by
    intro k h1 h2 h3
    unfold newClient
    rw [if_neg h1, if_neg h2, h3]
    rfl
  refine ⟨⟨?_, ?_⟩, hok⟩
  · intro ⟨cl, hcl⟩
    unfold newClient at hcl
    split at hcl
    next => cases hcl
    next h1 =>
      split at hcl
      next => cases hcl
      next h2 =>
        refine ⟨h1, h2, ?_⟩
        split at hcl
        next => cases hcl
        next block heq =>
          split at hcl
          next ht =>
            split at hcl
            next => cases hcl
            next key hk =>
              refine ⟨key, ?_⟩
              rw [heq]
              cases block with
              | mk btype bbytes =>
                cases bbytes with
                | pkcs8 k2 =>
                  simp only [parsePKCS8PrivateKey, Option.some.injEq] at hk
                  simp only at ht
                  rw [ht, hk]
                | certDer mm => simp [parsePKCS8PrivateKey] at hk
                | pkcs1Rsa mm => simp [parsePKCS8PrivateKey] at hk
                | sec1Ec mm => simp [parsePKCS8PrivateKey] at hk
                | junk mm => simp [parsePKCS8PrivateKey] at hk
          next => cases hcl
  · intro ⟨h1, h2, k, h3⟩
    exact ⟨⟨issuerID, keyID, k⟩, hok k h1 h2 h3⟩

/-- C8 amended witness: construction succeeds on an EC key in a PKCS8
container with non-empty identifiers. -/
theorem newClient_spec_witness :
    newClient "iss" "kid" [⟨"PRIVATE KEY", .pkcs8 (.ec 5)⟩] =
      .ok ⟨"iss", "kid", .ec 5⟩ :=
  (newClient_spec "iss" "kid" [⟨"PRIVATE KEY", .pkcs8 (.ec 5)⟩]).2 (.ec 5)
    (by decide) (by decide) rfl

/-- C9 counterexample: a remote expiration instant delivered with a
non-zero UTC offset (here 2026-01-01T00:00:00Z carried as
2025-12-31T16:00:00-08:00) is exposed as its wall clock reading with a
literal Z appended, which is not that instant expressed in UTC, because Go
Format with layout 2006-01-02T15:04:05Z performs no UTC conversion. -/
theorem readExpirationAttr_offset_counterexample :
    readExpirationAttr (some ⟨1767225600, -28800⟩) =
      .value "2025-12-31T16:00:00Z" ∧
    goFormatZ ⟨1767225600, 0⟩ = "2026-01-01T00:00:00Z" ∧
    ("2025-12-31T16:00:00Z" : String) ≠ "2026-01-01T00:00:00Z" :=
  ⟨rfl, rfl, by decide⟩

/-- C9 amended: an absent remote expiration timestamp is exposed as the
null value, never an empty string or zero time sentinel; a present
timestamp is exposed as its wall clock fields in the zone it arrived with,
rendered as YYYY-MM-DDTHH:MM:SS plus a literal Z; this string equals the
instant expressed in UTC exactly in the case the carried offset is zero,
as it is for the Z suffixed timestamps the remote service sends. -/
theorem readExpirationAttr_spec (t : GoTime) :
    readExpirationAttr none = .null ∧
    readExpirationAttr (some t) = .value (goFormatZ t) ∧
    (t.offsetSec = 0 → goFormatZ t = goFormatZ ⟨t.unixSec, 0⟩) := by
  refine ⟨rfl, rfl, ?_⟩
  intro h
  cases t with
  | mk u o => simp only at h; subst h; rfl

/-- C9 amended witness: a zero offset timestamp renders as its own UTC
reading, and an absent timestamp is null. -/
theorem readExpirationAttr_spec_witness :
    readExpirationAttr none = .null ∧
    goFormatZ ⟨1767225600, 0⟩ = goFormatZ ⟨1767225600, 0⟩ :=
  ⟨(readExpirationAttr_spec ⟨0, 0⟩).1,
    (readExpirationAttr_spec ⟨1767225600, 0⟩).2.2 rfl⟩

/-- C10: whenever CertificateResource.Read writes a new state, the local
only fields private_key_pem, pkcs12_bundle_password and
pkcs12_bundle_content of that state are exactly the values of the prior
state, for every remote response and every behaviour of the derived field
helpers; the remote refresh neither alters nor clears them and Read never
regenerates the PKCS12 bundle. -/
theorem certificateResourceRead_preserves_local_fields
    (data0 : CertificateResourceModel) (remote : Option Certificate)
    (pemOf : String → Except String String)
    (caOf : String → Except String (List String))
    (m : CertificateResourceModel)
    (h : certificateResourceRead data0 remote pemOf caOf = some m) :
    m.privateKeyPEM = data0.privateKeyPEM ∧
    m.pkcs12BundlePassword = data0.pkcs12BundlePassword ∧
    m.pkcs12BundleContent = data0.pkcs12BundleContent := by
  cases remote with
  | none => simp [certificateResourceRead] at h
  | some cert =>
    simp only [certificateResourceRead] at h
    split at h
    next => cases h
    next data2 heq =>
      split at h
      next => cases h
      next data3 heq2 =>
        cases h
        exact ⟨rfl, rfl, rfl⟩

/-- C10 witness: reading a concrete remote certificate over a prior state
with known local PKCS12 fields leaves those fields untouched. -/
theorem certificateResourceRead_preserves_local_fields_witness :
    sampleReadResult.privateKeyPEM = sampleReadState.privateKeyPEM ∧
    sampleReadResult.pkcs12BundlePassword =
      sampleReadState.pkcs12BundlePassword ∧
    sampleReadResult.pkcs12BundleContent =
      sampleReadState.pkcs12BundleContent :=
  certificateResourceRead_preserves_local_fields sampleReadState
    (some sampleReadCert) (fun _ => .error "unused") (fun _ => .error "unused")
    sampleReadResult rfl

end ASC
